import Mathlib

/-!
# Formal embedding of fastx402's payment-message core

Shallow embedding, in Lean 4, of the parts of the `fastx402` repository that
the specification's testable claims are about:

* `fastx402/utils.py` — the EIP-712 canonical message encoder
  (`get_eip712_domain`, `get_eip712_types`, `create_payment_message`,
  `encode_payment_message`) and the signature verifier's message envelope;
* `fastx402/types.py` — the `PaymentChallenge` pydantic model, its
  validation and `model_dump`;
* `fastx402/server.py` — `X402Server.verify_payment_header`;
* `fastx402/client/ws_server.py` — the `X402WebSocketServer` signing
  coordinator (`start`, `_handle_message`, `request_signature`, `stop`).

Python conventions are embedded explicitly: an exception-raising call is a
function into `Option`/`Except`; a JSON/dict field that may be absent is an
`Option`; a field whose Python value may be `None` while the key is present
is an `Option` nested inside the outer `Option` (`none` = key absent,
`some none` = key present with value `None`).  Python truthiness of strings
and dicts is modelled by explicit `Bool`-valued functions.

The terminal keccak digest applied by the external `eth_account` library is
deterministic in its input, so hash-equality claims are settled on the exact
hash input (`StructuredData`), and the signing/recovery envelope mismatch is
settled on the EIP-191 preimages defined below.
-/

/-- The EIP-712 domain record built by `get_eip712_domain`
(`fastx402/utils.py`, lines 12–19). -/
structure EIP712Domain where
  name : String
  version : String
  chainId : Int
  verifyingContract : String
deriving DecidableEq, Repr

/-- `get_eip712_domain(chain_id)` (`fastx402/utils.py`, lines 12–19). -/
def get_eip712_domain (chain_id : Int) : EIP712Domain :=
  { name := "x402"
  , version := "1"
  , chainId := chain_id
  , verifyingContract := "0x0000000000000000000000000000000000000000" }

/-- `get_eip712_types()` (`fastx402/utils.py`, lines 22–39): the fixed
EIP-712 type schema, as an association list of struct name to
(field name, field type) pairs. -/
def get_eip712_types : List (String × List (String × String)) :=
  [ ("EIP712Domain",
      [ ("name", "string"), ("version", "string"), ("chainId", "uint256")
      , ("verifyingContract", "address") ])
  , ("Payment",
      [ ("price", "string"), ("currency", "string"), ("chainId", "uint256")
      , ("merchant", "address"), ("timestamp", "uint256")
      , ("description", "string") ]) ]

/-- A challenge dict as passed to `create_payment_message` /
`encode_payment_message`: the required keys are always present (these dicts
come from `PaymentChallenge.model_dump()` or literal test fixtures), while
`description` and `nonce` keys may be absent (`none`), present with Python
`None` (`some none`), or present with a string (`some (some s)`). -/
structure ChallengeDict where
  price : String
  currency : String
  chain_id : Int
  merchant : String
  timestamp : Int
  description : Option (Option String)
  nonce : Option (Option String)
deriving DecidableEq, Repr

/-- Python's `d.get("description", "")` on a `ChallengeDict`: the default
applies only when the key is absent; a key present with `None` yields `None`
(`fastx402/utils.py`, line 70). -/
def ChallengeDict.getDescription (c : ChallengeDict) : Option String :=
  match c.description with
  | none => some ""
  | some v => v

/-- Hexadecimal digit test for address validation. -/
def isHexDigitChar (c : Char) : Bool :=
  (('0' ≤ c && c ≤ '9') || ('a' ≤ c && c ≤ 'f') || ('A' ≤ c && c ≤ 'F'))

/-- Python `str.lower` on one character (the strings involved are ASCII,
where Python and ASCII lowercasing agree). -/
def pyLowerChar (c : Char) : Char :=
  if 65 ≤ c.toNat ∧ c.toNat ≤ 90 then Char.ofNat (c.toNat + 32) else c

/-- Python `str.lower` (ASCII). -/
def pyLower (s : String) : String := ⟨s.data.map pyLowerChar⟩

/-- Python `str.upper` on one character (ASCII). -/
def pyUpperChar (c : Char) : Char :=
  if 97 ≤ c.toNat ∧ c.toNat ≤ 122 then Char.ofNat (c.toNat - 32) else c

/-- Python `str.upper` (ASCII). -/
def pyUpper (s : String) : String := ⟨s.data.map pyUpperChar⟩

/-- Python `s.startswith(p)` (case-sensitive). -/
def pyStartsWith (s p : String) : Bool :=
  s.data.take p.data.length == p.data

/-- Validity domain of `eth_utils.to_checksum_address`: a `"0x"`-prefixed
string of exactly 40 hexadecimal digits. -/
def isValidAddressHex (s : String) : Bool :=
  pyStartsWith s "0x" && s.data.length == 42 && (s.data.drop 2).all isHexDigitChar

/-- Stand-in for the EIP-55 mixed-casing computed inside the external
`eth_utils` library (a keccak-based re-casing of the hex digits).  No claim
depends on the concrete casing of a successfully checksummed address — only
on whether checksumming succeeds and on its determinism — so the casing is
abstracted as the identity on the (already lowercased) input. -/
def eip55Checksum (s : String) : String := s

/-- Models `eth_utils.to_checksum_address`: returns the checksummed address
for a valid `"0x"`-prefixed 40-hex-digit string and raises (here: `none`)
for anything else. -/
def to_checksum_address (s : String) : Option String :=
  if isValidAddressHex s then some (eip55Checksum s) else none

/-- The canonical EIP-712 `Payment` message assembled by
`create_payment_message` (`fastx402/utils.py`, lines 64–71).  `description`
is `Option String` because the Python value can be `None` (when the incoming
dict carries the key with value `None`, `.get` does not default it). -/
structure PaymentMessage where
  price : String
  currency : String
  chainId : Int
  merchant : String
  timestamp : Int
  description : Option String
deriving DecidableEq, Repr

/-- The merchant-normalization logic of `create_payment_message`
(`fastx402/utils.py`, lines 44–62), with Python exception flow made
explicit:

* mixed-case input (differs from both its lowercase and its uppercase):
  try `to_checksum_address(merchant.lower())`; on failure the inner bare
  `except` keeps the input unchanged (the outer `except` is unreachable on
  this path);
* otherwise: lowercase and ensure a `"0x"` prefix, then
  `to_checksum_address`; on failure the outer `except` falls back to the
  original string, prefixing `"0x"` only when it is not already there. -/
def normalizeMerchant (merchant : String) : String :=
  if merchant ≠ pyLower merchant ∧ merchant ≠ pyUpper merchant then
    match to_checksum_address (pyLower merchant) with
    | some cs => cs
    | none => merchant
  else
    let merchant_lower :=
      if pyStartsWith merchant "0x" then pyLower merchant
      else "0x" ++ pyLower merchant
    match to_checksum_address merchant_lower with
    | some cs => cs
    | none =>
        if pyStartsWith merchant "0x" then merchant else "0x" ++ merchant

/-- `create_payment_message(challenge)` (`fastx402/utils.py`, lines 42–71):
normalize the merchant, copy the other fields, and read `description` via
`.get("description", "")`. -/
def create_payment_message (challenge : ChallengeDict) : PaymentMessage :=
  { price := challenge.price
  , currency := challenge.currency
  , chainId := challenge.chain_id
  , merchant := normalizeMerchant challenge.merchant
  , timestamp := challenge.timestamp
  , description := challenge.getDescription }

/-- The exact input handed to the external typed-data hashing call
(`encode_typed_data` / `_hash_eip191_message`) by `encode_payment_message`
(`fastx402/utils.py`, lines 82–88). -/
structure StructuredData where
  types : List (String × List (String × String))
  domain : EIP712Domain
  primaryType : String
  message : PaymentMessage
deriving DecidableEq, Repr

/-- The structured-data assembly step of `encode_payment_message`
(`fastx402/utils.py`, lines 78–88): the value
`{types, domain, primaryType, message}` handed to the external typed-data
call.  The digest is a deterministic function of this value and of nothing
else, so hash-equality claims are settled on it — equal `StructuredData`
means equal digest.  The external call itself can raise for some of these
values; that failure behavior is `encode_typed_data_hash` below, and the
full fallible function is `encode_payment_message_full`. -/
def encode_payment_message (challenge : ChallengeDict) : StructuredData :=
  { types := get_eip712_types
  , domain := get_eip712_domain challenge.chain_id
  , primaryType := "Payment"
  , message := create_payment_message challenge }

/-- The exclusive upper bound `2 ^ 256` of a `uint256` value, written out
as a numeral. -/
def uint256Bound : Int :=
  115792089237316195423570985008687907853269984665640564039457584007913129639936

/-- Models the raising behavior of the external
`eth_account.encode_typed_data` / `_hash_eip191_message` call on the fixed
`Payment` schema.  Encoding raises when:

* the `description` slot holds Python `None` — a `string`-typed field must
  be a `str`;
* the `merchant` value is not a `"0x"`-prefixed 40-hex-digit string —
  eth_abi's `address` encoder rejects it (checksum casing is not checked);
* a `uint256`-typed value (`chainId` in the domain and the message,
  `timestamp`) is negative or at least `uint256Bound`.

`price` and `currency` are `String` by construction and cannot fail.  On
success the digest is returned — a deterministic function of the
structured data, represented by the data itself.  The detail strings, and
the check order when several fields are bad at once, are a modelling
choice; no claim depends on them. -/
def encode_typed_data_hash (sd : StructuredData) :
    Except String StructuredData :=
  if sd.message.description = none then
    .error "missing value for field description of type string"
  else if ¬ isValidAddressHex sd.message.merchant then
    .error ("invalid address value: " ++ sd.message.merchant)
  else if sd.domain.chainId < 0 ∨ uint256Bound ≤ sd.domain.chainId ∨
      sd.message.chainId < 0 ∨ uint256Bound ≤ sd.message.chainId then
    .error "chainId out of range for uint256"
  else if sd.message.timestamp < 0 ∨
      uint256Bound ≤ sd.message.timestamp then
    .error "timestamp out of range for uint256"
  else .ok sd

/-- The full `encode_payment_message(challenge)` (`fastx402/utils.py`,
lines 74–94): assemble the structured data and apply the external
typed-data digest, which raises (`Except.error`) for the inputs listed at
`encode_typed_data_hash` — in particular for a `None` description and for
a merchant that survived the normalization fallback as an invalid
address. -/
def encode_payment_message_full (challenge : ChallengeDict) :
    Except String StructuredData :=
  encode_typed_data_hash (encode_payment_message challenge)

/-- The `PaymentChallenge` pydantic model (`fastx402/types.py`, lines
10–31). -/
structure PaymentChallenge where
  price : String
  currency : String
  chain_id : Int
  merchant : String
  timestamp : Int
  description : Option String
  nonce : Option String
deriving DecidableEq, Repr

/-- `PaymentChallenge.model_dump()`: every field becomes a present key; an
unset optional field becomes a key present with Python `None`. -/
def PaymentChallenge.model_dump (c : PaymentChallenge) : ChallengeDict :=
  { price := c.price
  , currency := c.currency
  , chain_id := c.chain_id
  , merchant := c.merchant
  , timestamp := c.timestamp
  , description := some c.description
  , nonce := some c.nonce }

/-!
## The EIP-191 signing envelopes

`eth_account.messages` wraps every payload to be signed in a
`SignableMessage (version, header, body)` and signs/recovers over
`keccak256(b"\x19" + version + header + body)` (`_hash_eip191_message`).
The repository's signer (`example/client_cli.py`, lines 62–96) signs the
message produced by `encode_typed_data`, whose version byte is `0x01`;
`verify_signature` (`fastx402/utils.py`, lines 97–110) recovers over
`encode_defunct(message_hash)`, whose version byte is `0x45` (ASCII `E`).
The two envelopes are embedded here so the digests' preimages can be
compared byte for byte.
-/

/-- `eth_account.messages.SignableMessage`: version byte, header bytes and
body bytes (bytes as `Nat` lists, each entry < 256 by construction at every
use site). -/
structure SignableMessage where
  version : Nat
  header : List Nat
  body : List Nat
deriving DecidableEq, Repr

/-- ASCII bytes of a string (all strings involved are ASCII). -/
def asciiBytes (s : String) : List Nat := s.data.map Char.toNat

/-- `_hash_eip191_message`'s keccak preimage:
`b"\x19" + version + header + body`. -/
def eip191Preimage (m : SignableMessage) : List Nat :=
  0x19 :: m.version :: (m.header ++ m.body)

/-- `eth_account.messages.encode_typed_data(full_message)`: a
`SignableMessage` with version byte `0x01`, header the EIP-712 domain
separator and body the `hashStruct` of the message — both 32-byte keccak
outputs computed by the external library from the `StructuredData` input,
taken here as parameters. -/
def encode_typed_data_signable (domainSeparator hashStruct : List Nat) :
    SignableMessage :=
  { version := 0x01, header := domainSeparator, body := hashStruct }

/-- `eth_account.messages.encode_defunct(primitive)`: a `SignableMessage`
with version byte `0x45` (ASCII `E`), header
`b"thereum Signed Message:\n" + str(len(primitive))` and body the
primitive bytes. -/
def encode_defunct (primitive : List Nat) : SignableMessage :=
  { version := 0x45
  , header := asciiBytes ("thereum Signed Message:\n" ++ toString primitive.length)
  , body := primitive }

/-- The keccak preimage of the digest the repository's signer actually
signs: `Account.sign_message(encode_typed_data(structured_data), key)`
(`example/client_cli.py`, lines 89–90). -/
def signerDigestPreimage (domainSeparator hashStruct : List Nat) : List Nat :=
  eip191Preimage (encode_typed_data_signable domainSeparator hashStruct)

/-- The keccak preimage of the digest `verify_signature` recovers against:
`Account.recover_message(encode_defunct(message_hash), signature)`
(`fastx402/utils.py`, lines 104–107). -/
def verifierDigestPreimage (message_hash : List Nat) : List Nat :=
  eip191Preimage (encode_defunct message_hash)

/-!
## `X402Server.verify_payment_header` (`fastx402/server.py`, lines 75–129)
-/

/-- `PaymentVerificationResult` (`fastx402/types.py`, lines 51–57). -/
structure PaymentVerificationResult where
  valid : Bool
  signer : Option String
  error : Option String
  tx_hash : Option String
deriving DecidableEq, Repr

/-- A challenge dict as it arrives inside the `X-PAYMENT` header JSON:
every key may be absent.  `description`/`nonce` distinguish an absent key
(`none`) from a key present with `None` (`some none`). -/
structure RawChallengeDict where
  price : Option String
  currency : Option String
  chain_id : Option Int
  merchant : Option String
  timestamp : Option Int
  description : Option (Option String)
  nonce : Option (Option String)
deriving DecidableEq, Repr, Inhabited

/-- Pydantic validation `PaymentChallenge(**challenge_dict)`
(`fastx402/types.py`, lines 10–19): `price`, `currency`, `chain_id` and
`merchant` are required (a missing one raises a `ValidationError`, here an
`Except.error` carrying the detail string); `timestamp` defaults to the
current clock (`now`, passed in explicitly since the `default_factory` reads
the environment); `description` and `nonce` default to `None`. -/
def parsePaymentChallenge (now : Int) (d : RawChallengeDict) :
    Except String PaymentChallenge :=
  match d.price, d.currency, d.chain_id, d.merchant with
  | some p, some cu, some ch, some m =>
      .ok { price := p
          , currency := cu
          , chain_id := ch
          , merchant := m
          , timestamp := d.timestamp.getD now
          , description := d.description.getD none
          , nonce := d.nonce.getD none }
  | _, _, _, _ => .error "validation error for PaymentChallenge: field required"

/-- Python truthiness of an optional string (`None` and `""` are falsy). -/
def truthyStr (s : Option String) : Bool :=
  match s with
  | none => false
  | some s => !(s == "")

/-- Python truthiness of an optional challenge dict (`None` and the empty
dict `\x7b\x7d` are falsy). -/
def truthyChallengeDict (d : Option RawChallengeDict) : Bool :=
  match d with
  | none => false
  | some d =>
      d.price.isSome || d.currency.isSome || d.chain_id.isSome ||
      d.merchant.isSome || d.timestamp.isSome || d.description.isSome ||
      d.nonce.isSome

/-- The `X-PAYMENT` request header as seen by `verify_payment_header`:
absent, present but not valid JSON (the detail string is what `json.loads`
reports), or parsed into its three top-level fields. -/
inductive PaymentHeaderInput where
  | missing : PaymentHeaderInput
  | malformedJson (detail : String) : PaymentHeaderInput
  | parsed (signature : Option String) (signer : Option String)
      (challenge : Option RawChallengeDict) : PaymentHeaderInput
deriving DecidableEq, Repr

/-- `X402Server.verify_payment_header` (`fastx402/server.py`, lines
75–129), embedded as a total function — the whole body after the header
check sits in a `try`/`except Exception` that converts every raised error
into a `PaymentVerificationResult`:

* missing header → `"Missing X-PAYMENT header"` (before the `try`);
* `json.loads` failure → caught → `"Verification error: <detail>"`;
* a falsy `signature`, `signer` or `challenge` → `"Invalid payment header
  format"`;
* `PaymentChallenge(**challenge_dict)` failure → caught →
  `"Verification error: <detail>"`;
* `encode_payment_message(challenge.model_dump())` raising (a `None`
  description, an invalid fallback merchant, an out-of-range integer —
  see `encode_typed_data_hash`) → caught → `"Verification error:
  <detail>"`;
* then `verify_signature(signature, message_hash, signer)` — the external
  signature check never raises (`fastx402/utils.py`, lines 102–110) and is
  passed in as the boolean function `verifier` acting on the signature,
  the digest's `StructuredData` input and the signer;
* `false` → `"Signature verification failed"`, `true` →
  `{valid: true, signer}`. -/
def verify_payment_header
    (verifier : String → StructuredData → String → Bool) (now : Int)
    (h : PaymentHeaderInput) : PaymentVerificationResult :=
  match h with
  | .missing =>
      { valid := false, signer := none
      , error := some "Missing X-PAYMENT header", tx_hash := none }
  | .malformedJson detail =>
      { valid := false, signer := none
      , error := some ("Verification error: " ++ detail), tx_hash := none }
  | .parsed signature signer challenge_dict =>
      if truthyStr signature ∧ truthyStr signer ∧
          truthyChallengeDict challenge_dict then
        match parsePaymentChallenge now ((challenge_dict.getD default)) with
        | .error e =>
            { valid := false, signer := none
            , error := some ("Verification error: " ++ e), tx_hash := none }
        | .ok challenge =>
            match encode_payment_message_full challenge.model_dump with
            | .error e =>
                { valid := false, signer := none
                , error := some ("Verification error: " ++ e)
                , tx_hash := none }
            | .ok message_hash =>
                if verifier (signature.getD "") message_hash
                    (signer.getD "") then
                  { valid := true, signer := signer, error := none
                  , tx_hash := none }
                else
                  { valid := false, signer := none
                  , error := some "Signature verification failed"
                  , tx_hash := none }
      else
        { valid := false, signer := none
        , error := some "Invalid payment header format", tx_hash := none }

/-!
## The signing coordinator `X402WebSocketServer`
(`fastx402/client/ws_server.py`)

Single-threaded cooperative concurrency: every operation below is a pure
transition on the coordinator state, applied atomically between suspension
points.  `asyncio.Future` objects survive their removal from the
`pending_requests` dict (the awaiting coroutine holds them), so the state
keeps a persistent `futures` store keyed by request id alongside the
`pending` registry of ids currently in `self.pending_requests`.
-/

/-- The `PaymentSignature` pydantic model (`fastx402/types.py`, lines
34–40). -/
structure PaymentSignature where
  signature : String
  signer : String
  challenge : PaymentChallenge
  message_hash : Option String
deriving DecidableEq, Repr

/-- The lifecycle state of one `asyncio.Future` created by
`request_signature`. -/
inductive FutureState where
  | pending : FutureState
  | resolvedSig (sig : PaymentSignature) : FutureState
  | resolvedNone : FutureState
  | failed (errorMessage : Option String) : FutureState
  | cancelled : FutureState
deriving DecidableEq, Repr

/-- `future.done()`: true in every state but `pending`. -/
def FutureState.done (f : FutureState) : Bool :=
  match f with
  | .pending => false
  | _ => true

/-- The mutable state of an `X402WebSocketServer`
(`fastx402/client/ws_server.py`, lines 51–58).  `server` holds the handle
returned by the latest successful `websockets.serve` call, and thereby
tracks whether the listening port is currently bound (`stop()` closes the
endpoint and clears it); `nextHandle` models the external library
allocating a fresh endpoint handle per successful bind.
`clients` maps client id to websocket handle in insertion order;
`pending` lists the request ids currently in `self.pending_requests`, and
`futures` records every future ever created, by request id. -/
structure WSState where
  server : Option Nat
  nextHandle : Nat
  clients : List (String × Nat)
  pending : List String
  futures : List (String × FutureState)
  running : Bool
deriving DecidableEq, Repr

/-- Update one future's state in the store. -/
def setFuture (l : List (String × FutureState)) (k : String)
    (v : FutureState) : List (String × FutureState) :=
  l.map (fun p => if p.1 = k then (p.1, v) else p)

/-- `X402WebSocketServer.start()` (`fastx402/client/ws_server.py`, lines
60–112): there is no check of the `running` flag anywhere in the method —
it unconditionally calls `await serve(handle_client, "localhost",
self.port)`, with no surrounding `try`.  The bind is modelled through the
`server` field: while the previous endpoint is still open (`server = some
handle`; only `stop()` closes and clears it), binding the same port again
raises `OSError` (address already in use) inside `serve`, *before* the
assignments `self.server = ...` and `self.running = True` are reached, and
the exception propagates out of `start()` leaving the state unchanged.
With the port free, `serve` returns a fresh endpoint handle, which is
stored, and `running` is set to `True` — whatever the flag's previous
value. -/
def WSState.start (s : WSState) : Except String WSState :=
  match s.server with
  | some _ => .error "OSError: [Errno 98] Address already in use"
  | none =>
      .ok { s with server := some s.nextHandle
                 , nextHandle := s.nextHandle + 1
                 , running := true }

/-- An inbound websocket message as read by `_handle_message`
(`fastx402/client/ws_server.py`, lines 114–144).  Each field models
`message.get(...)`: the outer `Option` is key presence, the inner value is
the Python value (`some none` = key present with `None`).  `result` carries
an already-validated `PaymentSignature` when present and truthy; the claims
never exercise a malformed `result` dict. -/
structure WsMessage where
  type : Option String
  id : Option String
  error : Option (Option String)
  result : Option (Option PaymentSignature)
deriving DecidableEq, Repr

/-- Python truthiness of `message.get("error")`: truthy exactly when the
key is present with a non-`None`, non-empty string. -/
def truthyErrorField (e : Option (Option String)) : Bool :=
  match e with
  | some (some s) => !(s == "")
  | _ => false

/-- `X402WebSocketServer._handle_message(client_id, message)`
(`fastx402/client/ws_server.py`, lines 114–144).  The `client_id` argument
is unused by the method body and omitted.

* `"sign-response"`: when `message.get("id")` is truthy and the id is in
  `self.pending_requests`, pop the future and resolve it — with an
  exception when `message.get("error")` is truthy, with the parsed
  `PaymentSignature` when `message.get("result")` is truthy, and with
  `None` otherwise; in every other case the state is untouched.
* `"pong"`: no-op.
* `"error"`: when the id is truthy and pending, pop and fail the future
  with `message.get("error", "Unknown error")` (a key present with `None`
  yields the Python value `None`, hence the `Option String` payload).
* anything else: no-op. -/
def WSState.handle_message (s : WSState) (m : WsMessage) : WSState :=
  if m.type == some "sign-response" then
    match m.id with
    | some msgId =>
        if msgId ≠ "" ∧ msgId ∈ s.pending then
          let popped := s.pending.erase msgId
          if truthyErrorField m.error then
            { s with pending := popped
                   , futures := setFuture s.futures msgId
                       (.failed (m.error.getD none)) }
          else
            match m.result with
            | some (some sig) =>
                { s with pending := popped
                       , futures := setFuture s.futures msgId
                           (.resolvedSig sig) }
            | _ =>
                { s with pending := popped
                       , futures := setFuture s.futures msgId .resolvedNone }
        else s
    | none => s
  else if m.type == some "pong" then s
  else if m.type == some "error" then
    match m.id with
    | some msgId =>
        if msgId ≠ "" ∧ msgId ∈ s.pending then
          { s with pending := s.pending.erase msgId
                 , futures := setFuture s.futures msgId
                     (.failed (match m.error with
                               | none => some "Unknown error"
                               | some v => v)) }
        else s
    | none => s
  else s

/-- The errors `request_signature` can raise
(`fastx402/client/ws_server.py`, lines 146–199). -/
inductive CoordError where
  | connectionError (message : String) : CoordError
  | timeoutError : CoordError
  | signerError (message : Option String) : CoordError
  | cancelledError : CoordError
deriving DecidableEq, Repr

/-- The `"sign-request"` wire message serialized to the chosen client
(`fastx402/client/ws_server.py`, lines 173–177). -/
structure SignRequestMessage where
  type : String
  id : String
  challenge : ChallengeDict
deriving DecidableEq, Repr

/-- The dispatch phase of `X402WebSocketServer.request_signature`
(`fastx402/client/ws_server.py`, lines 146–187): everything before the
first suspension on the future.

* `self.clients` empty → raise
  `ConnectionError("No frontend clients connected. ...")` immediately,
  before any future is created or registered — the returned state is the
  input state;
* otherwise register a fresh pending future under the fresh `request_id`
  (`uuid4`, passed in as `rid`) and send
  `{type: "sign-request", id, challenge: challenge.model_dump()}` to the
  first connected client (`next(iter(self.clients.values()))`); the
  successful send is returned as the recipient handle and the message. -/
def WSState.request_signature_dispatch (s : WSState)
    (challenge : PaymentChallenge) (rid : String) :
    WSState × Except CoordError (Nat × SignRequestMessage) :=
  match s.clients with
  | [] =>
      (s, .error (.connectionError
        "No frontend clients connected. Start x402instant WebSocket client first."))
  | (_, ws) :: _ =>
      ({ s with pending := s.pending ++ [rid]
              , futures := s.futures ++ [(rid, .pending)] }
      , .ok (ws, { type := "sign-request", id := rid
                 , challenge := challenge.model_dump }))

/-- The await phase of `request_signature`
(`fastx402/client/ws_server.py`, lines 189–199):
`await asyncio.wait_for(future, timeout=self.timeout)`, as a function of
the future's state at the moment the wait completes (`pending` = nobody
resolved it within the budget, so `wait_for` raises `asyncio.TimeoutError`
and the method pops the id and raises `TimeoutError`; any exception path
re-pops the id, a no-op when the handler already popped it). -/
def request_signature_await (fs : FutureState) :
    Except CoordError (Option PaymentSignature) :=
  match fs with
  | .pending => .error .timeoutError
  | .resolvedSig sig => .ok (some sig)
  | .resolvedNone => .ok none
  | .failed e => .error (.signerError e)
  | .cancelled => .error .cancelledError

/-- The registry cleanup on the timeout path:
`self.pending_requests.pop(request_id, None)`
(`fastx402/client/ws_server.py`, lines 194 and 198) — removes the id when
present, a no-op otherwise; the future object itself is not touched by this
line. -/
def WSState.timeout_pop (s : WSState) (rid : String) : WSState :=
  { s with pending := s.pending.erase rid }

/-- `X402WebSocketServer.stop()` (`fastx402/client/ws_server.py`, lines
201–222): set `running` false; call `close()` on every registered websocket
(best-effort — a raising close is swallowed by `except Exception: pass`, so
the close attempts are returned as the list of handles, in registry order);
clear `clients`; cancel every future still in `pending_requests` that is
not done; clear `pending_requests`; close the listening endpoint. -/
def WSState.stop (s : WSState) : WSState × List Nat :=
  ({ s with running := false
          , clients := []
          , pending := []
          , futures := s.futures.map (fun p =>
              if p.1 ∈ s.pending ∧ ¬p.2.done then (p.1, .cancelled) else p)
          , server := none }
  , s.clients.map Prod.snd)

/-!
## Concrete fixtures used by witnesses and counterexamples
-/

/-- A fully populated challenge dict (the tests' fixture values,
`tests/test_client.py`, lines 19–27), nonce `"nonce-a"`. -/
def chalNonceA : ChallengeDict :=
  { price := "0.01", currency := "USDC", chain_id := 8453
  , merchant := "0x742d35cc6634c0532925a3b844bc9e7595f0beb0"
  , timestamp := 1699123456
  , description := some (some "Test payment")
  , nonce := some (some "nonce-a") }

/-- `chalNonceA` with only the nonce changed. -/
def chalNonceB : ChallengeDict :=
  { chalNonceA with nonce := some (some "nonce-b") }

/-- `chalNonceA` with only the price changed. -/
def chalPriceDiff : ChallengeDict :=
  { chalNonceA with price := "0.02" }

/-- A fully populated `PaymentChallenge`. -/
def pcFull : PaymentChallenge :=
  { price := "0.01", currency := "USDC", chain_id := 8453
  , merchant := "0x742d35cc6634c0532925a3b844bc9e7595f0beb0"
  , timestamp := 1699123456
  , description := some "Test payment"
  , nonce := some "nonce-a" }

/-- A `PaymentChallenge` whose optional `description` was never set —
`model_dump()` emits its `description` key with Python `None`. -/
def pcNoDescription : PaymentChallenge :=
  { price := "0.01", currency := "USDC", chain_id := 8453
  , merchant := "0x742d35cc6634c0532925a3b844bc9e7595f0beb0"
  , timestamp := 1699123456
  , description := none
  , nonce := some "nonce-a" }

/-- A hand-built challenge dict (as in `tests/test_utils.py`, lines 25–32)
whose `description` key is absent altogether. -/
def chalAbsentDesc : ChallengeDict :=
  { price := "0.01", currency := "USDC", chain_id := 8453
  , merchant := "0x742d35cc6634c0532925a3b844bc9e7595f0beb0"
  , timestamp := 1699123456
  , description := none
  , nonce := none }

/-- A challenge dict whose merchant `"zZ"` is mixed-case (it differs from
both its lowercase and its uppercase) and not a valid address. -/
def chalMerchantMixedBad : ChallengeDict :=
  { price := "0.01", currency := "USDC", chain_id := 8453
  , merchant := "zZ", timestamp := 1699123456
  , description := some (some "d"), nonce := none }

/-- A challenge dict whose merchant is a fully-uppercase `"0X"`-prefixed
hex string (the claim's example of a malformed address: the `"0X"` prefix
defeats the case-sensitive `startswith("0x")` test). -/
def chalMerchantUpperBad : ChallengeDict :=
  { price := "0.01", currency := "USDC", chain_id := 8453
  , merchant := "0XAAAAAAAAAAAAAAAAAAAAAAAAAAAAAAAAAAAAAAAA"
  , timestamp := 1699123456
  , description := some (some "d"), nonce := none }

/-- A verifier stub that accepts every signature (stands in for
`verify_signature` returning `True`). -/
def verifierAlwaysTrue : String → StructuredData → String → Bool :=
  fun _ _ _ => true

/-- A verifier stub that rejects every signature (stands in for
`verify_signature` returning `False`). -/
def verifierAlwaysFalse : String → StructuredData → String → Bool :=
  fun _ _ _ => false

/-- A structurally complete `X-PAYMENT` challenge dict. -/
def rawChalFull : RawChallengeDict :=
  { price := some "0.01", currency := some "USDC", chain_id := some 8453
  , merchant := some "0x742d35cc6634c0532925a3b844bc9e7595f0beb0"
  , timestamp := some 1699123456
  , description := some (some "Test payment")
  , nonce := some (some "nonce-a") }

/-- A nonempty challenge dict missing the required `currency` key, so
`PaymentChallenge(**d)` raises a validation error. -/
def rawChalMissingCurrency : RawChallengeDict :=
  { price := some "0.01", currency := none, chain_id := some 8453
  , merchant := some "0x742d35cc6634c0532925a3b844bc9e7595f0beb0"
  , timestamp := some 1699123456
  , description := none, nonce := none }

/-- A structurally complete `X-PAYMENT` challenge dict whose `description`
key is absent — validation succeeds with `description = None`, and the
re-encoding step then raises inside the external typed-data encoder. -/
def rawChalNoDesc : RawChallengeDict :=
  { price := some "0.01", currency := some "USDC", chain_id := some 8453
  , merchant := some "0x742d35cc6634c0532925a3b844bc9e7595f0beb0"
  , timestamp := some 1699123456
  , description := none, nonce := some (some "nonce-a") }

/-- A coordinator state that is already running, with a bound endpoint. -/
def wsRunningState : WSState :=
  { server := some 0, nextHandle := 1, clients := [], pending := []
  , futures := [], running := true }

/-- A coordinator state after `stop()`: endpoint released, flag false. -/
def wsStoppedState : WSState :=
  { server := none, nextHandle := 5, clients := [], pending := []
  , futures := [], running := false }

/-- A coordinator state with the `running` flag set but no bound endpoint
— separates what `start()` reads (the bind) from what the claim says it
reads (the flag). -/
def wsFlagOnlyState : WSState :=
  { server := none, nextHandle := 9, clients := [], pending := []
  , futures := [], running := true }

/-- A running coordinator state with no connected clients. -/
def wsEmptyClientsState : WSState :=
  { server := some 3, nextHandle := 4, clients := [], pending := []
  , futures := [], running := true }

/-- A running coordinator state with one client and two in-flight
requests. -/
def wsStateTwoPending : WSState :=
  { server := some 0, nextHandle := 1, clients := [("client-1", 7)]
  , pending := ["r1", "r2"]
  , futures := [("r1", .pending), ("r2", .pending)], running := true }

/-- A signed proof fixture. -/
def sigFixture : PaymentSignature :=
  { signature := "0xdeadbeef", signer := "0xsigner", challenge := pcFull
  , message_hash := none }

/-- A `"sign-response"` wire message answering request `"r1"` with a
result. -/
def signRespR1 : WsMessage :=
  { type := some "sign-response", id := some "r1", error := none
  , result := some (some sigFixture) }

/-- A `"sign-response"` wire message for the unknown id `"ghost"`. -/
def signRespGhost : WsMessage :=
  { type := some "sign-response", id := some "ghost", error := none
  , result := some (some sigFixture) }

/-!
## Helper lemmas on association-list lookup
-/

theorem uint256Bound_eq_two_pow : uint256Bound = 2 ^ 256 := by
  norm_num [uint256Bound]

theorem lookup_map_entry (g : String → FutureState → FutureState)
    (l : List (String × FutureState)) (k : String) :
    (l.map (fun p => (p.1, g p.1 p.2))).lookup k = (l.lookup k).map (g k) := by
  induction l with
  | nil => rfl
  | cons p t ih =>
      obtain ⟨a, b⟩ := p
      by_cases h : k = a
      · subst h
        simp [List.lookup]
      · have hba : (k == a) = false := by simp [h]
        simp [List.lookup, hba, ih]

theorem setFuture_eq_map (l : List (String × FutureState)) (k : String)
    (v : FutureState) :
    setFuture l k v = l.map (fun p => (p.1, if p.1 = k then v else p.2)) := by
  unfold setFuture
  apply List.map_congr_left
  intro p _
  by_cases h : p.1 = k <;> simp [h]

theorem lookup_setFuture (l : List (String × FutureState)) (k j : String)
    (v : FutureState) :
    (setFuture l k v).lookup j =
      (l.lookup j).map (fun w => if j = k then v else w) := by
  rw [setFuture_eq_map]
  exact lookup_map_entry (fun a b => if a = k then v else b) l j

/-!
## Claim theorems
-/

/-- Claim C1 (amended): for every two Challenge records that are field-wise
equal, `encode_payment_message` produces identical inputs to the digest —
hence identical hashes.  The hash input is determined by `price`,
`currency`, `chain_id`, `merchant`, `timestamp` and `description` alone:
`nonce` is not part of the EIP-712 `Payment` struct, so two records
differing only in `nonce` also receive identical hashes.  Conversely, a
difference in any of the pass-through fields `price`, `currency`,
`chain_id` or `timestamp` yields a different hash input (and therefore a
different digest with overwhelming probability); `merchant` and
`description` influence the hash only through normalization and
defaulting. -/
theorem C1_hash_input_determined_by_message_fields :
    (∀ c₁ c₂ : ChallengeDict,
      c₁.price = c₂.price → c₁.currency = c₂.currency →
      c₁.chain_id = c₂.chain_id → c₁.merchant = c₂.merchant →
      c₁.timestamp = c₂.timestamp → c₁.description = c₂.description →
      encode_payment_message c₁ = encode_payment_message c₂)
    ∧ (∀ c₁ c₂ : ChallengeDict,
      c₁.price ≠ c₂.price ∨ c₁.currency ≠ c₂.currency ∨
      c₁.chain_id ≠ c₂.chain_id ∨ c₁.timestamp ≠ c₂.timestamp →
      encode_payment_message c₁ ≠ encode_payment_message c₂) := by
  constructor
  · intro c₁ c₂ hp hc hch hm ht hd
    simp only [encode_payment_message, create_payment_message,
      ChallengeDict.getDescription, hp, hc, hch, hm, ht, hd]
  · intro c₁ c₂ hne heq
    have hmsg : (encode_payment_message c₁).message =
        (encode_payment_message c₂).message := by rw [heq]
    rcases hne with h | h | h | h
    · exact h (congrArg PaymentMessage.price hmsg)
    · exact h (congrArg PaymentMessage.currency hmsg)
    · exact h (congrArg PaymentMessage.chainId hmsg)
    · exact h (congrArg PaymentMessage.timestamp hmsg)

/-- Claim C1, witness: two challenges equal in the six message fields (they
differ in nonce) get the same hash input; changing the price changes it. -/
theorem C1_hash_input_determined_by_message_fields_witness :
    encode_payment_message chalNonceA = encode_payment_message chalNonceB ∧
    encode_payment_message chalNonceA ≠ encode_payment_message chalPriceDiff :=
  ⟨C1_hash_input_determined_by_message_fields.1 chalNonceA chalNonceB
      rfl rfl rfl rfl rfl rfl
  , C1_hash_input_determined_by_message_fields.2 chalNonceA chalPriceDiff
      (Or.inl (by decide))⟩

/-- Claim C1, counterexample to the claim as stated: `chalNonceA` and
`chalNonceB` differ in the `nonce` field, yet `encode_payment_message`
hands the external digest byte-identical input, so their hashes are equal
with certainty — not different with overwhelming probability. -/
theorem C1_claim_counterexample :
    chalNonceA.nonce ≠ chalNonceB.nonce ∧
    encode_payment_message chalNonceA = encode_payment_message chalNonceB :=
  ⟨by decide, rfl⟩

/-- Claim C2: the digest the repository's signer signs
(`Account.sign_message(encode_typed_data(...))`, EIP-191 version byte
`0x01`) and the digest `verify_signature` recovers against
(`Account.recover_message(encode_defunct(message_hash))`, version byte
`0x45`) are keccak images of byte strings that differ at index 1 for every
domain separator, struct hash and message hash — the verifier checks a
different digest than the one signed, so round-trip verification cannot
succeed except under a keccak collision. -/
theorem C2_signer_verifier_digest_preimages_differ :
    ∀ (domainSeparator hashStruct message_hash : List Nat),
      signerDigestPreimage domainSeparator hashStruct ≠
        verifierDigestPreimage message_hash := by
  intro ds hs mh h
  simp only [signerDigestPreimage, verifierDigestPreimage, eip191Preimage,
    encode_typed_data_signable, encode_defunct] at h
  injection h with h1 h2
  injection h2 with h3 h4
  exact absurd h3 (by decide)

/-- Claim C4 (amended): `create_payment_message` defaults `description` to
the empty string only when the `description` key is absent from the
challenge dict; when the key is present with Python `None` — which is
exactly what `model_dump()` produces for a Challenge with no description —
the canonical message carries `None`, not the empty string; a present
string passes through unchanged. -/
theorem C4_description_defaulting :
    ∀ c : ChallengeDict,
      (c.description = none →
        (create_payment_message c).description = some "") ∧
      (c.description = some none →
        (create_payment_message c).description = none) ∧
      (∀ s, c.description = some (some s) →
        (create_payment_message c).description = some s) := by
  intro c
  refine ⟨?_, ?_, ?_⟩
  · intro h
    simp [create_payment_message, ChallengeDict.getDescription, h]
  · intro h
    simp [create_payment_message, ChallengeDict.getDescription, h]
  · intro s h
    simp [create_payment_message, ChallengeDict.getDescription, h]

/-- Claim C4, witness: with the key absent the default fires; on the
`model_dump` of a description-less Challenge it does not. -/
theorem C4_description_defaulting_witness :
    (create_payment_message chalAbsentDesc).description = some "" ∧
    (create_payment_message pcNoDescription.model_dump).description = none :=
  ⟨(C4_description_defaulting chalAbsentDesc).1 rfl
  , (C4_description_defaulting pcNoDescription.model_dump).2.1 rfl⟩

/-- Claim C4, counterexample to the claim as stated: dumping a Challenge
with no description yields a dict whose `description` key is present with
`None`, and the assembled canonical message's description is then `None`
(`.get("description", "")` only defaults an absent key), not the claimed
empty string. -/
theorem C4_claim_counterexample :
    pcNoDescription.description = none ∧
    (create_payment_message pcNoDescription.model_dump).description ≠ some "" :=
  ⟨rfl, by decide⟩

/-- Claim C5 (amended): the canonical-message assembly
(`create_payment_message`) never raises for a malformed merchant string,
and the fallback value depends on the input's casing: when a fully-lower
or fully-uppercase merchant fails checksum normalization, the merchant
value is the original string with `"0x"` prepended exactly when it does
not already start with `"0x"`; when a mixed-case merchant fails
validation, the original string is used unchanged, with no prefix added.
`encode_payment_message` as a whole, however, *does* raise for such
merchants: the fallback value is not a valid address, so the external
typed-data encoder rejects it and the exception propagates out of
`encode_payment_message` (downstream, `verify_payment_header` converts it
into a `"Verification error"`). -/
theorem C5_merchant_fallback :
    ∀ c : ChallengeDict,
      (¬(c.merchant ≠ pyLower c.merchant ∧ c.merchant ≠ pyUpper c.merchant) →
        to_checksum_address
          (if pyStartsWith c.merchant "0x" then pyLower c.merchant
           else "0x" ++ pyLower c.merchant) = none →
        (create_payment_message c).merchant =
          (if pyStartsWith c.merchant "0x" then c.merchant
           else "0x" ++ c.merchant)) ∧
      ((c.merchant ≠ pyLower c.merchant ∧ c.merchant ≠ pyUpper c.merchant) →
        to_checksum_address (pyLower c.merchant) = none →
        (create_payment_message c).merchant = c.merchant) ∧
      ((create_payment_message c).description ≠ none →
        isValidAddressHex (create_payment_message c).merchant = false →
        encode_payment_message_full c =
          .error ("invalid address value: " ++
            (create_payment_message c).merchant)) := by
  intro c
  refine ⟨?_, ?_, ?_⟩
  · intro hcase hfail
    simp only [create_payment_message, normalizeMerchant, if_neg hcase, hfail]
  · intro hcase hfail
    simp only [create_payment_message, normalizeMerchant, if_pos hcase, hfail]
  · intro hd hm
    simp [encode_payment_message_full, encode_typed_data_hash,
      encode_payment_message, hd, hm]

/-- Claim C5, witness: the fully-uppercase `"0X"`-prefixed merchant falls
back to the original with `"0x"` prepended; the mixed-case `"zZ"` merchant
falls back to the original unchanged; the former's fallback value is then
rejected by the external typed-data encoder. -/
theorem C5_merchant_fallback_witness :
    (create_payment_message chalMerchantUpperBad).merchant =
      (if pyStartsWith chalMerchantUpperBad.merchant "0x" then
        chalMerchantUpperBad.merchant
       else "0x" ++ chalMerchantUpperBad.merchant) ∧
    (create_payment_message chalMerchantMixedBad).merchant =
      chalMerchantMixedBad.merchant ∧
    encode_payment_message_full chalMerchantUpperBad =
      .error ("invalid address value: " ++
        (create_payment_message chalMerchantUpperBad).merchant) :=
  ⟨(C5_merchant_fallback chalMerchantUpperBad).1 (by decide) (by decide)
  , (C5_merchant_fallback chalMerchantMixedBad).2.1 (by decide) (by decide)
  , (C5_merchant_fallback chalMerchantUpperBad).2.2 (by decide) (by decide)⟩

/-- Claim C5, counterexample to the claim as stated, both halves: for the
mixed-case malformed merchant `"zZ"`, normalization fails (its lowercase
is not a valid address), yet the merchant value used is the original
string `"zZ"` itself — not the original string prefixed with `"0x"` — and
`encode_payment_message` does not return a hash for it: the external
typed-data encoder raises on the invalid fallback address, so the call
raises. -/
theorem C5_claim_counterexample :
    to_checksum_address (pyLower chalMerchantMixedBad.merchant) = none ∧
    (create_payment_message chalMerchantMixedBad).merchant = "zZ" ∧
    ("zZ" : String) ≠ "0x" ++ "zZ" ∧
    encode_payment_message_full chalMerchantMixedBad =
      .error "invalid address value: zZ" :=
  ⟨by decide, by decide, by decide, rfl⟩

theorem handle_message_sign_response_mem (s : WSState)
    (me : Option (Option String)) (mr : Option (Option PaymentSignature))
    (i : String) (hne : i ≠ "") (hin : i ∈ s.pending) :
    s.handle_message
      { type := some "sign-response", id := some i, error := me
      , result := mr } =
      { s with pending := s.pending.erase i
             , futures := setFuture s.futures i
                 (if truthyErrorField me then .failed (me.getD none)
                  else match mr with
                       | some (some sig) => .resolvedSig sig
                       | _ => .resolvedNone) } := by
  unfold WSState.handle_message
  simp only [beq_self_eq_true, if_true, Option.some.injEq, reduceCtorEq]
  rw [if_pos ⟨hne, hin⟩]
  by_cases htr : truthyErrorField me = true
  · simp [htr]
  · simp only [htr, Bool.false_eq_true, if_false]
    match mr with
    | none => simp
    | some none => simp
    | some (some sig) => simp

theorem handle_message_sign_response_not_mem (s : WSState)
    (me : Option (Option String)) (mr : Option (Option PaymentSignature))
    (i : String) (h : i ∉ s.pending) :
    s.handle_message
      { type := some "sign-response", id := some i, error := me
      , result := mr } = s := by
  unfold WSState.handle_message
  simp only [beq_self_eq_true, if_true]
  rw [if_neg (fun hc => h hc.2)]

theorem stop_futures_eq_map (s : WSState) :
    (s.stop).1.futures = s.futures.map (fun p =>
      (p.1, if p.1 ∈ s.pending ∧ ¬p.2.done then FutureState.cancelled
            else p.2)) := by
  show s.futures.map _ = _
  apply List.map_congr_left
  intro p _
  by_cases h : p.1 ∈ s.pending ∧ p.2.done = false <;> simp [h]

theorem stop_futures_lookup (s : WSState) (k : String) :
    (s.stop).1.futures.lookup k = (s.futures.lookup k).map
      (fun v => if k ∈ s.pending ∧ ¬v.done then FutureState.cancelled
                else v) := by
  rw [stop_futures_eq_map]
  exact lookup_map_entry
    (fun a b => if a ∈ s.pending ∧ ¬b.done then FutureState.cancelled else b)
    s.futures k

/-- Claim C3: `verify_payment_header` is a total function into
`PaymentVerificationResult` — every internal failure is converted into a
result, never propagated — and the result taxonomy is exactly: a falsy
`signature`, `signer` or `challenge` field yields
`error="Invalid payment header format"`; a challenge-dict that fails
`PaymentChallenge` validation, an unparseable header JSON, and a
re-encoding step that raises inside the `try` (a `None` description, an
invalid fallback merchant, an out-of-range integer) all yield
`error="Verification error: <detail>"`; a recomputed hash that does not
verify yields `error="Signature verification failed"`; success yields
`{valid: true, signer: proof.signer}`. -/
theorem C3_verification_result_taxonomy :
    (∀ (v : String → StructuredData → String → Bool) (now : Int) (d : String),
      verify_payment_header v now (.malformedJson d) =
        { valid := false, signer := none
        , error := some ("Verification error: " ++ d), tx_hash := none }) ∧
    (∀ (v : String → StructuredData → String → Bool) (now : Int)
        (sig sgr : Option String) (ch : Option RawChallengeDict),
      ¬(truthyStr sig = true ∧ truthyStr sgr = true ∧
          truthyChallengeDict ch = true) →
      verify_payment_header v now (.parsed sig sgr ch) =
        { valid := false, signer := none
        , error := some "Invalid payment header format", tx_hash := none }) ∧
    (∀ (v : String → StructuredData → String → Bool) (now : Int)
        (sig sgr : Option String) (ch : Option RawChallengeDict) (e : String),
      (truthyStr sig = true ∧ truthyStr sgr = true ∧
          truthyChallengeDict ch = true) →
      parsePaymentChallenge now (ch.getD default) = .error e →
      verify_payment_header v now (.parsed sig sgr ch) =
        { valid := false, signer := none
        , error := some ("Verification error: " ++ e), tx_hash := none }) ∧
    (∀ (v : String → StructuredData → String → Bool) (now : Int)
        (sig sgr : Option String) (ch : Option RawChallengeDict)
        (c : PaymentChallenge) (e : String),
      (truthyStr sig = true ∧ truthyStr sgr = true ∧
          truthyChallengeDict ch = true) →
      parsePaymentChallenge now (ch.getD default) = .ok c →
      encode_payment_message_full c.model_dump = .error e →
      verify_payment_header v now (.parsed sig sgr ch) =
        { valid := false, signer := none
        , error := some ("Verification error: " ++ e), tx_hash := none }) ∧
    (∀ (v : String → StructuredData → String → Bool) (now : Int)
        (sig sgr : Option String) (ch : Option RawChallengeDict)
        (c : PaymentChallenge) (dg : StructuredData),
      (truthyStr sig = true ∧ truthyStr sgr = true ∧
          truthyChallengeDict ch = true) →
      parsePaymentChallenge now (ch.getD default) = .ok c →
      encode_payment_message_full c.model_dump = .ok dg →
      v (sig.getD "") dg (sgr.getD "") = false →
      verify_payment_header v now (.parsed sig sgr ch) =
        { valid := false, signer := none
        , error := some "Signature verification failed", tx_hash := none }) ∧
    (∀ (v : String → StructuredData → String → Bool) (now : Int)
        (sig sgr : Option String) (ch : Option RawChallengeDict)
        (c : PaymentChallenge) (dg : StructuredData),
      (truthyStr sig = true ∧ truthyStr sgr = true ∧
          truthyChallengeDict ch = true) →
      parsePaymentChallenge now (ch.getD default) = .ok c →
      encode_payment_message_full c.model_dump = .ok dg →
      v (sig.getD "") dg (sgr.getD "") = true →
      verify_payment_header v now (.parsed sig sgr ch) =
        { valid := true, signer := sgr, error := none, tx_hash := none }) := by
  refine ⟨?_, ?_, ?_, ?_, ?_, ?_⟩
  · intro v now d
    rfl
  · intro v now sig sgr ch hc
    show (if _ ∧ _ ∧ _ then _ else _) = _
    rw [if_neg hc]
  · intro v now sig sgr ch e hc hparse
    show (if _ ∧ _ ∧ _ then _ else _) = _
    rw [if_pos hc, hparse]
  · intro v now sig sgr ch c e hc hparse henc
    show (if _ ∧ _ ∧ _ then _ else _) = _
    rw [if_pos hc, hparse]
    simp [henc]
  · intro v now sig sgr ch c dg hc hparse henc hv
    show (if _ ∧ _ ∧ _ then _ else _) = _
    rw [if_pos hc, hparse]
    simp [henc, hv]
  · intro v now sig sgr ch c dg hc hparse henc hv
    show (if _ ∧ _ ∧ _ then _ else _) = _
    rw [if_pos hc, hparse]
    simp [henc, hv]

/-- Claim C3, witness: the five `.parsed` outcomes — including the
re-encoding failure on the dump of a description-less challenge — and the
malformed-JSON outcome, on concrete header inputs. -/
theorem C3_verification_result_taxonomy_witness :
    verify_payment_header verifierAlwaysTrue 0 (.malformedJson "Expecting value") =
      { valid := false, signer := none
      , error := some "Verification error: Expecting value", tx_hash := none } ∧
    verify_payment_header verifierAlwaysTrue 0 (.parsed none (some "0xsigner") (some rawChalFull)) =
      { valid := false, signer := none
      , error := some "Invalid payment header format", tx_hash := none } ∧
    verify_payment_header verifierAlwaysTrue 0
        (.parsed (some "0xdeadbeef") (some "0xsigner") (some rawChalMissingCurrency)) =
      { valid := false, signer := none
      , error := some
          "Verification error: validation error for PaymentChallenge: field required"
      , tx_hash := none } ∧
    verify_payment_header verifierAlwaysTrue 0
        (.parsed (some "0xdeadbeef") (some "0xsigner") (some rawChalNoDesc)) =
      { valid := false, signer := none
      , error := some
          "Verification error: missing value for field description of type string"
      , tx_hash := none } ∧
    verify_payment_header verifierAlwaysFalse 0
        (.parsed (some "0xdeadbeef") (some "0xsigner") (some rawChalFull)) =
      { valid := false, signer := none
      , error := some "Signature verification failed", tx_hash := none } ∧
    verify_payment_header verifierAlwaysTrue 0
        (.parsed (some "0xdeadbeef") (some "0xsigner") (some rawChalFull)) =
      { valid := true, signer := some "0xsigner", error := none
      , tx_hash := none } :=
  ⟨C3_verification_result_taxonomy.1 verifierAlwaysTrue 0 "Expecting value"
  , C3_verification_result_taxonomy.2.1 verifierAlwaysTrue 0 none
      (some "0xsigner") (some rawChalFull) (by decide)
  , C3_verification_result_taxonomy.2.2.1 verifierAlwaysTrue 0
      (some "0xdeadbeef") (some "0xsigner") (some rawChalMissingCurrency)
      "validation error for PaymentChallenge: field required"
      (by decide) rfl
  , C3_verification_result_taxonomy.2.2.2.1 verifierAlwaysTrue 0
      (some "0xdeadbeef") (some "0xsigner") (some rawChalNoDesc)
      { price := "0.01", currency := "USDC", chain_id := 8453
      , merchant := "0x742d35cc6634c0532925a3b844bc9e7595f0beb0"
      , timestamp := 1699123456, description := none
      , nonce := some "nonce-a" }
      "missing value for field description of type string"
      (by decide) rfl rfl
  , C3_verification_result_taxonomy.2.2.2.2.1 verifierAlwaysFalse 0
      (some "0xdeadbeef") (some "0xsigner") (some rawChalFull)
      { price := "0.01", currency := "USDC", chain_id := 8453
      , merchant := "0x742d35cc6634c0532925a3b844bc9e7595f0beb0"
      , timestamp := 1699123456, description := some "Test payment"
      , nonce := some "nonce-a" }
      (encode_payment_message
        (PaymentChallenge.model_dump
          { price := "0.01", currency := "USDC", chain_id := 8453
          , merchant := "0x742d35cc6634c0532925a3b844bc9e7595f0beb0"
          , timestamp := 1699123456, description := some "Test payment"
          , nonce := some "nonce-a" }))
      (by decide) rfl rfl rfl
  , C3_verification_result_taxonomy.2.2.2.2.2 verifierAlwaysTrue 0
      (some "0xdeadbeef") (some "0xsigner") (some rawChalFull)
      { price := "0.01", currency := "USDC", chain_id := 8453
      , merchant := "0x742d35cc6634c0532925a3b844bc9e7595f0beb0"
      , timestamp := 1699123456, description := some "Test payment"
      , nonce := some "nonce-a" }
      (encode_payment_message
        (PaymentChallenge.model_dump
          { price := "0.01", currency := "USDC", chain_id := 8453
          , merchant := "0x742d35cc6634c0532925a3b844bc9e7595f0beb0"
          , timestamp := 1699123456, description := some "Test payment"
          , nonce := some "nonce-a" }))
      (by decide) rfl rfl rfl⟩

/-- Claim C6 (amended): `start()` has no running-flag guard — it
unconditionally calls `websockets.serve`.  While the previous endpoint is
still bound, the second bind raises `OSError` (address already in use)
before `self.server` or `self.running` are assigned, so the call raises
rather than silently returning, leaving the coordinator state unchanged;
when the port is not bound (e.g. after `stop()`), `start()` binds a fresh
endpoint, stores its handle and sets `running` true — whatever the flag's
value. -/
theorem C6_start_not_flag_guarded :
    ∀ s : WSState,
      (∀ h, s.server = some h →
        s.start = .error "OSError: [Errno 98] Address already in use") ∧
      (s.server = none →
        s.start = .ok { s with server := some s.nextHandle
                             , nextHandle := s.nextHandle + 1
                             , running := true }) := by
  intro s
  constructor
  · intro h hs
    simp [WSState.start, hs]
  · intro hs
    simp [WSState.start, hs]

/-- Claim C6, witness: a coordinator with a bound endpoint raises on a
second `start()`; one with the port free rebinds. -/
theorem C6_start_not_flag_guarded_witness :
    wsRunningState.start =
      .error "OSError: [Errno 98] Address already in use" ∧
    wsStoppedState.start =
      .ok { server := some 5, nextHandle := 6, clients := [], pending := []
          , futures := [], running := true } :=
  ⟨(C6_start_not_flag_guarded wsRunningState).1 0 rfl
  , (C6_start_not_flag_guarded wsStoppedState).2 rfl⟩

/-- Claim C6, counterexample to the claim as stated: on a running
coordinator with a bound endpoint, `start()` is not a no-op — it raises
`OSError` out of the unguarded `serve` call — and the behavior is governed
by the bind, not by a running-flag guard: with the flag set but the port
free, `start()` happily binds and overwrites the handle. -/
theorem C6_claim_counterexample :
    wsRunningState.running = true ∧
    wsRunningState.start =
      .error "OSError: [Errno 98] Address already in use" ∧
    wsFlagOnlyState.running = true ∧
    wsFlagOnlyState.start =
      .ok { server := some 9, nextHandle := 10, clients := [], pending := []
          , futures := [], running := true } :=
  ⟨rfl, rfl, rfl, rfl⟩

/-- Claim C7: a `"sign-response"` whose id is still registered resolves it
— removing the id from the pending registry while leaving every other
pending request's future, the client registry and the rest of the state
untouched — and a `"sign-response"` whose id is not (or no longer)
registered leaves the coordinator state completely unchanged, as does the
timeout-path `pending_requests.pop(request_id, None)` for an
already-resolved id.  Together with the resolution paths all requiring and
removing registry membership, exactly one resolution fires per
correlation id. -/
theorem C7_exactly_one_resolution :
    (∀ (s : WSState) (m : WsMessage) (i : String),
      m.type = some "sign-response" → m.id = some i → i ∉ s.pending →
      s.handle_message m = s) ∧
    (∀ (s : WSState) (m : WsMessage) (i : String),
      m.type = some "sign-response" → m.id = some i → i ≠ "" →
      i ∈ s.pending →
      (s.handle_message m).pending = s.pending.erase i ∧
      (s.handle_message m).clients = s.clients ∧
      (s.handle_message m).server = s.server ∧
      (s.handle_message m).running = s.running ∧
      (∀ j, j ≠ i →
        (s.handle_message m).futures.lookup j = s.futures.lookup j)) ∧
    (∀ (s : WSState) (i : String), i ∉ s.pending → s.timeout_pop i = s) := by
  refine ⟨?_, ?_, ?_⟩
  · intro s m i ht hid h
    obtain ⟨mt, mid, me, mr⟩ := m
    cases ht
    cases hid
    exact handle_message_sign_response_not_mem s me mr i h
  · intro s m i ht hid hne hin
    obtain ⟨mt, mid, me, mr⟩ := m
    cases ht
    cases hid
    rw [handle_message_sign_response_mem s me mr i hne hin]
    refine ⟨rfl, rfl, rfl, rfl, ?_⟩
    intro j hj
    show (setFuture s.futures i _).lookup j = _
    rw [lookup_setFuture]
    cases s.futures.lookup j <;> simp [hj]
  · intro s i h
    show { s with pending := s.pending.erase i } = s
    rw [List.erase_of_not_mem h]

/-- Claim C7, witness: on a state with pending ids `r1` and `r2`, a
response for the unknown id `ghost` changes nothing; a response for `r1`
removes exactly `r1` and leaves `r2`'s future alone; a timeout pop for an
absent id changes nothing. -/
theorem C7_exactly_one_resolution_witness :
    wsStateTwoPending.handle_message signRespGhost = wsStateTwoPending ∧
    (wsStateTwoPending.handle_message signRespR1).pending =
      wsStateTwoPending.pending.erase "r1" ∧
    (wsStateTwoPending.handle_message signRespR1).futures.lookup "r2" =
      wsStateTwoPending.futures.lookup "r2" ∧
    wsStateTwoPending.timeout_pop "ghost" = wsStateTwoPending :=
  ⟨C7_exactly_one_resolution.1 wsStateTwoPending signRespGhost "ghost"
      rfl rfl (by decide)
  , (C7_exactly_one_resolution.2.1 wsStateTwoPending signRespR1 "r1"
      rfl rfl (by decide) (by decide)).1
  , (C7_exactly_one_resolution.2.1 wsStateTwoPending signRespR1 "r1"
      rfl rfl (by decide) (by decide)).2.2.2.2 "r2" (by decide)
  , C7_exactly_one_resolution.2.2 wsStateTwoPending "ghost" (by decide)⟩

/-- Claim C8: `request_signature` with an empty client registry raises
`ConnectionError("No frontend clients connected. ...")` in its dispatch
phase — before any future is created, before any pending entry is
registered, and before the timed wait is ever reached — leaving the
coordinator state exactly as it was. -/
theorem C8_no_signer_connected (s : WSState) (challenge : PaymentChallenge)
    (rid : String) (h : s.clients = []) :
    s.request_signature_dispatch challenge rid =
      (s, .error (.connectionError
        "No frontend clients connected. Start x402instant WebSocket client first.")) := by
  unfold WSState.request_signature_dispatch
  rw [h]

/-- Claim C8, witness: the dispatch on a concrete clientless state. -/
theorem C8_no_signer_connected_witness :
    wsEmptyClientsState.request_signature_dispatch pcFull "rid-1" =
      (wsEmptyClientsState, .error (.connectionError
        "No frontend clients connected. Start x402instant WebSocket client first.")) :=
  C8_no_signer_connected wsEmptyClientsState pcFull "rid-1" rfl

/-- Claim C9: after `stop()`, the running flag is false, the listening
endpoint is released, both registries are empty, `close()` was attempted
on every previously registered connection (in registry order — failures
are swallowed by the `except Exception: pass`), every pending request
whose future was still unresolved is cancelled, and already-resolved
futures are untouched. -/
theorem C9_stop_postconditions :
    ∀ s : WSState,
      (s.stop).1.running = false ∧
      (s.stop).1.clients = [] ∧
      (s.stop).1.pending = [] ∧
      (s.stop).1.server = none ∧
      (s.stop).2 = s.clients.map Prod.snd ∧
      (∀ k, k ∈ s.pending → s.futures.lookup k = some .pending →
        (s.stop).1.futures.lookup k = some .cancelled) ∧
      (∀ k v, s.futures.lookup k = some v → v.done = true →
        (s.stop).1.futures.lookup k = some v) := by
  intro s
  refine ⟨rfl, rfl, rfl, rfl, rfl, ?_, ?_⟩
  · intro k hk hf
    rw [stop_futures_lookup, hf]
    simp [FutureState.done, hk]
  · intro k v hf hd
    rw [stop_futures_lookup, hf]
    simp [hd]

/-- Claim C9, witness: stopping the two-pending-requests state cancels
both unresolved futures, empties both registries and reports the close
attempt on the single registered connection. -/
theorem C9_stop_postconditions_witness :
    (wsStateTwoPending.stop).1.running = false ∧
    (wsStateTwoPending.stop).1.clients = [] ∧
    (wsStateTwoPending.stop).1.pending = [] ∧
    (wsStateTwoPending.stop).2 = [7] ∧
    (wsStateTwoPending.stop).1.futures.lookup "r1" = some .cancelled :=
  ⟨(C9_stop_postconditions wsStateTwoPending).1
  , (C9_stop_postconditions wsStateTwoPending).2.1
  , (C9_stop_postconditions wsStateTwoPending).2.2.1
  , (C9_stop_postconditions wsStateTwoPending).2.2.2.2.1
  , (C9_stop_postconditions wsStateTwoPending).2.2.2.2.2.1 "r1"
      (by decide) (by decide)⟩

/-- Claim C10: a `"sign-response"` carrying a registered id but neither an
`error` key nor a `result` key resolves the pending future with `None`
(`future.set_result(None)`), and the awaiting `request_signature` call
then returns `None` — neither a `PaymentSignature` nor an exception. -/
theorem C10_empty_sign_response_resolves_none :
    ∀ (s : WSState) (i : String) (fs0 : FutureState),
      i ≠ "" → i ∈ s.pending → s.futures.lookup i = some fs0 →
      (s.handle_message
        { type := some "sign-response", id := some i, error := none
        , result := none }).futures.lookup i = some .resolvedNone ∧
      request_signature_await .resolvedNone = .ok none := by
  intro s i fs0 hne hin hf
  constructor
  · rw [handle_message_sign_response_mem s none none i hne hin]
    show (setFuture s.futures i _).lookup i = _
    rw [lookup_setFuture, hf]
    simp [truthyErrorField]
  · rfl

/-- Claim C10, witness: resolving `r1` with an empty sign-response on the
concrete two-pending state. -/
theorem C10_empty_sign_response_resolves_none_witness :
    (wsStateTwoPending.handle_message
        { type := some "sign-response", id := some "r1", error := none
        , result := none }).futures.lookup "r1" = some .resolvedNone ∧
      request_signature_await .resolvedNone = .ok none :=
  C10_empty_sign_response_resolves_none wsStateTwoPending "r1" .pending
    (by decide) (by decide) (by decide)
